import Mathlib

/-!
Verification of the numeric/set facts demonstrator in
`src/01_basics/numbers.py`.

The script computes a fixed battery of facts about integer sets
(union, intersection, difference, symmetric difference, mutation
methods) and about numeric types (binary64 floats, fixed-precision
decimals, exact rationals).  We shallowly embed those computations:

* Python `set` of `int` becomes `Finset ℤ`; the operator forms
  `| & - ^` and the method forms `union/intersection/difference/
  symmetric_difference` are embedded separately so the script's
  claim that both forms agree is a real statement.
* binary64 floats are embedded exactly as dyadic rationals `m * 2^e`
  together with the round-to-nearest, ties-to-even rounding that the
  host runtime performs on literals and on addition.
* `Decimal` values are pairs `c * 10^e`; division rounds the quotient
  to the context precision with ties to even, as in the default
  decimal context.
* `Fraction` values are integer pairs compared by cross
  multiplication, the value equality the host type implements.
* The fallible steps of a run (`remove`, `pop`, key lookup, decimal
  division, fraction construction) are chained in `Except`, and the
  exit status of the entry point is 0 on success, 1 on error.
-/

/-- The first example set of the demonstrator: `set1 = {1, 2, 3, 4, 5}`. -/
def set1 : Finset ℤ := {1, 2, 3, 4, 5}

/-- The second example set: `set2 = {4, 5, 6, 7, 8}`. -/
def set2 : Finset ℤ := {4, 5, 6, 7, 8}

/-- The third example set: `set3 = {1, 2, 3}`. -/
def set3 : Finset ℤ := {1, 2, 3}

/-- The literal list with duplicates: `[1, 2, 2, 3, 4, 4, 5]`. -/
def list_with_duplicates : List ℤ := [1, 2, 2, 3, 4, 4, 5]

/-- `set(list_with_duplicates)`: the set obtained from the list. -/
def set_from_list : Finset ℤ := list_with_duplicates.toFinset

/-- Operator form `a | b` of set union. -/
def pyUnion (a b : Finset ℤ) : Finset ℤ := a ∪ b

/-- Operator form `a & b` of set intersection. -/
def pyIntersection (a b : Finset ℤ) : Finset ℤ := a ∩ b

/-- Operator form `a - b` of set difference. -/
def pyDifference (a b : Finset ℤ) : Finset ℤ := a \ b

/-- Operator form `a ^ b` of symmetric difference: the elements that
are in either set but not in both. -/
def pySymmetricDifference (a b : Finset ℤ) : Finset ℤ := (a ∪ b) \ (a ∩ b)

/-- Method form `a.union(b)`: every element of `a` together with every
element of `b`, duplicates collapsed. -/
def unionMethod (a b : Finset ℤ) : Finset ℤ := (a.val + b.val).toFinset

/-- Method form `a.intersection(b)`: the elements of `a` that are also
members of `b`. -/
def intersectionMethod (a b : Finset ℤ) : Finset ℤ := a.filter (· ∈ b)

/-- Method form `a.difference(b)`: the elements of `a` that are not
members of `b`. -/
def differenceMethod (a b : Finset ℤ) : Finset ℤ := a.filter (· ∉ b)

/-- Method form `a.symmetric_difference(b)`: the elements of exactly
one of the two sets. -/
def symmetricDifferenceMethod (a b : Finset ℤ) : Finset ℤ :=
  a.filter (· ∉ b) ∪ b.filter (· ∉ a)

/-- `s.pop()` on a nonempty set: remove and return one element (the
choice is unspecified in the host runtime; the embedding takes the
minimum), failing with `KeyError` on an empty set. -/
def pyPop (s : Finset ℤ) : Except String (ℤ × Finset ℤ) :=
  if h : 0 < s.card then
    let x := s.min' (Finset.card_pos.mp h)
    Except.ok (x, s.erase x)
  else
    Except.error "KeyError: pop from an empty set"

/-- `s.remove(x)`: remove `x`, failing with `KeyError` when absent. -/
def pyRemove (s : Finset ℤ) (x : ℤ) : Except String (Finset ℤ) :=
  if x ∈ s then Except.ok (s.erase x) else Except.error "KeyError"

/-- C1.  For every pair of finite integer sets `A` and `B`, the size of
`union(A,B)` equals `size(A) + size(B) - size(intersection(A,B))`. -/
theorem c1_union_card (A B : Finset ℤ) :
    ((pyUnion A B).card : ℤ) = A.card + B.card - (pyIntersection A B).card := by
  have h := Finset.card_union_add_card_inter A B
  simp only [pyUnion, pyIntersection]
  omega

/-- C2.  For every pair of finite sets `A` and `B`,
`symmetricDifference(A,B) = union(difference(A,B), difference(B,A))`. -/
theorem c2_symmDiff_eq_union_of_diffs (A B : Finset ℤ) :
    pySymmetricDifference A B = pyUnion (pyDifference A B) (pyDifference B A) := by
  ext x
  simp only [pySymmetricDifference, pyUnion, pyDifference, Finset.mem_sdiff,
    Finset.mem_union, Finset.mem_inter]
  tauto

/-- C3.  `intersection` is commutative, and for nonempty `A ≠ B` the two
difference directions disagree. -/
theorem c3_inter_comm_diff_noncomm :
    (∀ A B : Finset ℤ, pyIntersection A B = pyIntersection B A) ∧
    (∀ A B : Finset ℤ, A.Nonempty → B.Nonempty → A ≠ B →
      pyDifference A B ≠ pyDifference B A) := by
  constructor
  · intro A B
    simp only [pyIntersection]
    exact Finset.inter_comm A B
  · intro A B _ _ hne heq
    simp only [pyDifference] at heq
    apply hne
    ext x
    constructor
    · intro hx
      by_contra hB
      have hmem : x ∈ A \ B := Finset.mem_sdiff.mpr ⟨hx, hB⟩
      rw [heq] at hmem
      exact hB (Finset.mem_sdiff.mp hmem).1
    · intro hx
      by_contra hA
      have hmem : x ∈ B \ A := Finset.mem_sdiff.mpr ⟨hx, hA⟩
      rw [← heq] at hmem
      exact hA (Finset.mem_sdiff.mp hmem).1

/-- Witness for C3 at the demonstrator's sets `set1` and `set2`. -/
theorem c3_witness :
    set1.Nonempty ∧ set2.Nonempty ∧ set1 ≠ set2 ∧
      pyDifference set1 set2 ≠ pyDifference set2 set1 :=
  ⟨by decide, by decide, by decide,
    c3_inter_comm_diff_noncomm.2 set1 set2 (by decide) (by decide) (by decide)⟩

/-- C5.  Converting `[1, 2, 2, 3, 4, 4, 5]` to a set yields exactly
`{1, 2, 3, 4, 5}`, of size 5. -/
theorem c5_set_from_list :
    set_from_list = ({1, 2, 3, 4, 5} : Finset ℤ) ∧ set_from_list.card = 5 := by
  decide

/-- C10.  On the demonstrator's `set1` and `set2`, each operator form of
a set operation agrees with its method form. -/
theorem c10_operator_eq_method :
    pyUnion set1 set2 = unionMethod set1 set2 ∧
    pyIntersection set1 set2 = intersectionMethod set1 set2 ∧
    pyDifference set1 set2 = differenceMethod set1 set2 ∧
    pySymmetricDifference set1 set2 = symmetricDifferenceMethod set1 set2 := by
  decide

/-- C8.  Popping a nonempty set returns a member, and the remaining set
is the original with that member removed, one element smaller. -/
theorem c8_pop_spec (s : Finset ℤ) (h : 0 < s.card) :
    ∃ x, pyPop s = Except.ok (x, s.erase x) ∧ x ∈ s ∧
      (s.erase x).card = s.card - 1 := by
  refine ⟨s.min' (Finset.card_pos.mp h), ?_, s.min'_mem _, ?_⟩
  · unfold pyPop
    rw [dif_pos h]
  · exact Finset.card_erase_of_mem (s.min'_mem _)

/-- Witness for C8 on the demonstrator's mutated test set
`{1, 2, 3, 4, 5, 6}` (the state just before `pop()` runs). -/
theorem c8_pop_spec_witness :
    0 < ({1, 2, 3, 4, 5, 6} : Finset ℤ).card ∧
      ∃ x, pyPop ({1, 2, 3, 4, 5, 6} : Finset ℤ) =
          Except.ok (x, ({1, 2, 3, 4, 5, 6} : Finset ℤ).erase x) ∧
        x ∈ ({1, 2, 3, 4, 5, 6} : Finset ℤ) ∧
        (({1, 2, 3, 4, 5, 6} : Finset ℤ).erase x).card =
          ({1, 2, 3, 4, 5, 6} : Finset ℤ).card - 1 :=
  ⟨by decide, c8_pop_spec ({1, 2, 3, 4, 5, 6} : Finset ℤ) (by decide)⟩

/-! ### Exact model of binary64 rounding

A binary64 value is written as a pair `(m, e) : ℤ × ℤ` denoting the
dyadic rational `m * 2^e`.  Rounding a positive rational `a / b` to
binary64 first normalizes it to `(a' / b') * 2^e` with
`2^52 ≤ a' / b' < 2^53` and then rounds `a' / b'` to the nearest
integer, ties to even — exactly the round-half-even mode the host
runtime uses for literals and arithmetic on normal positive values. -/

/-- Round `a / b` (with `0 ≤ a`, `0 < b`) to the nearest integer,
ties going to the even neighbour. -/
def roundHalfEvenDiv (a b : ℤ) : ℤ :=
  let q := a / b
  let r := a % b
  if 2 * r < b then q
  else if b < 2 * r then q + 1
  else if q % 2 = 0 then q else q + 1

/-- Normalize `(a, b, e)` (value `(a / b) * 2^e`, with `0 < a`, `0 < b`)
until `2^52 ≤ a / b < 2^53`, preserving the value.  The fuel bounds the
number of doubling steps and is ample for every value in this file. -/
def flNormalize : ℕ → ℤ × ℤ × ℤ → ℤ × ℤ × ℤ
  | 0, x => x
  | fuel + 1, (a, b, e) =>
    if b * 2 ^ 53 ≤ a then flNormalize fuel (a, b * 2, e + 1)
    else if a < b * 2 ^ 52 then flNormalize fuel (a * 2, b, e - 1)
    else (a, b, e)

/-- The binary64 value nearest to the positive rational `a / b`,
as a dyadic pair `(m, e)` meaning `m * 2^e`. -/
def flOfRat (a b : ℤ) : ℤ × ℤ :=
  let n := flNormalize 400 (a, b, 0)
  (roundHalfEvenDiv n.1 n.2.1, n.2.2)

/-- The binary64 value nearest to the dyadic rational `s * 2^e`. -/
def flOfDyadic (s e : ℤ) : ℤ × ℤ :=
  if 0 ≤ e then flOfRat (s * 2 ^ e.toNat) 1 else flOfRat s (2 ^ (-e).toNat)

/-- binary64 addition: the exact sum of the two dyadic values, rounded
back to binary64. -/
def flAdd (x y : ℤ × ℤ) : ℤ × ℤ :=
  let e := min x.2 y.2
  flOfDyadic (x.1 * 2 ^ (x.2 - e).toNat + y.1 * 2 ^ (y.2 - e).toNat) e

/-- Value equality of two dyadic pairs: `m₁ * 2^e₁ = m₂ * 2^e₂`,
decided by scaling both to the smaller exponent. -/
def dyadicEq (x y : ℤ × ℤ) : Prop :=
  x.1 * 2 ^ (x.2 - min x.2 y.2).toNat = y.1 * 2 ^ (y.2 - min x.2 y.2).toNat

instance (x y : ℤ × ℤ) : Decidable (dyadicEq x y) := by
  unfold dyadicEq
  infer_instance

/-! ### Exact model of fixed-precision decimals

A `Decimal` value is a pair `(c, e) : ℤ × ℤ` denoting `c * 10^e`. -/

/-- The decimal literal `Decimal('0.1')`: coefficient 1, exponent -1. -/
def decimal_tenth : ℤ × ℤ := (1, -1)

/-- The decimal literal `Decimal('0.2')`: coefficient 2, exponent -1. -/
def decimal_two_tenths : ℤ × ℤ := (2, -1)

/-- The decimal literal `Decimal('0.3')`: coefficient 3, exponent -1. -/
def decimal_three_tenths : ℤ × ℤ := (3, -1)

/-- Decimal addition: align both operands to the smaller exponent and
add coefficients.  This is exact, which matches the context as long as
the result coefficient stays within the precision — true for every
addition the demonstrator performs at its precision of 28. -/
def decAdd (x y : ℤ × ℤ) : ℤ × ℤ :=
  let e := min x.2 y.2
  (x.1 * 10 ^ (x.2 - e).toNat + y.1 * 10 ^ (y.2 - e).toNat, e)

/-- Value equality of two decimal pairs: `c₁ * 10^e₁ = c₂ * 10^e₂`. -/
def decEqv (x y : ℤ × ℤ) : Prop :=
  x.1 * 10 ^ (x.2 - min x.2 y.2).toNat = y.1 * 10 ^ (y.2 - min x.2 y.2).toNat

instance (x y : ℤ × ℤ) : Decidable (decEqv x y) := by
  unfold decEqv
  infer_instance

/-- Normalize `(a, b, e)` (value `(a / b) * 10^e`, positive) until
`10^(prec-1) ≤ a / b < 10^prec`, preserving the value. -/
def decNormalize (prec : ℕ) : ℕ → ℤ × ℤ × ℤ → ℤ × ℤ × ℤ
  | 0, x => x
  | fuel + 1, (a, b, e) =>
    if b * 10 ^ prec ≤ a then decNormalize prec fuel (a, b * 10, e + 1)
    else if a < b * 10 ^ (prec - 1) then decNormalize prec fuel (a * 10, b, e - 1)
    else (a, b, e)

/-- Quotient of two positive integers rounded to `prec` significant
decimal digits, ties to even — the default decimal context's division
at precision `prec`. -/
def decDivPos (prec : ℕ) (a b : ℤ) : ℤ × ℤ :=
  let n := decNormalize prec 400 (a, b, 0)
  (roundHalfEvenDiv n.1 n.2.1, n.2.2)

/-- `Decimal` division at context precision `prec`. -/
def decDiv (prec : ℕ) (x y : ℤ × ℤ) : ℤ × ℤ :=
  let q := decDivPos prec x.1 y.1
  (q.1, q.2 + x.2 - y.2)

/-! ### Exact model of rationals (`Fraction`) -/

/-- `Fraction` built from a decimal string with integer part `i`,
fractional digits `d`, and `k` digits after the point: the rational
`(i * 10^k + d) / 10^k`. -/
def fractionOfDecimalString (i d : ℤ) (k : ℕ) : ℤ × ℤ :=
  (i * 10 ^ k + d, 10 ^ k)

/-- `frac2 = Fraction('0.25')`. -/
def frac2 : ℤ × ℤ := fractionOfDecimalString 0 25 2

/-- Value equality of fractions, by cross multiplication — the equality
the host rational type implements. -/
def fracEq (x y : ℤ × ℤ) : Prop := x.1 * y.2 = y.1 * x.2

instance (x y : ℤ × ℤ) : Decidable (fracEq x y) := by
  unfold fracEq
  infer_instance

/-- C4.  The binary64 computation `0.1 + 0.2` (parse both literals,
add, round) is not equal to the binary64 value of `0.3`, while
`Decimal('0.1') + Decimal('0.2')` is exactly `Decimal('0.3')`. -/
theorem c4_float_vs_decimal :
    ¬ dyadicEq (flAdd (flOfRat 1 10) (flOfRat 2 10)) (flOfRat 3 10) ∧
      decEqv (decAdd decimal_tenth decimal_two_tenths) decimal_three_tenths := by
  decide

/-- C6.  `Fraction('0.25')` equals the rational `1/4`. -/
theorem c6_fraction_quarter : fracEq frac2 (1, 4) := by
  decide

/-- C7.  `Decimal(1) / Decimal(7)` at precision 5 differs from the same
division at precision 20, and the precision-20 result carries 20
significant digits where the precision-5 result carries only 5. -/
theorem c7_decimal_precision :
    ¬ decEqv (decDiv 5 (1, 0) (7, 0)) (decDiv 20 (1, 0) (7, 0)) ∧
      (10 : ℤ) ^ 19 ≤ (decDiv 20 (1, 0) (7, 0)).1 ∧
      (decDiv 20 (1, 0) (7, 0)).1 < 10 ^ 20 ∧
      (10 : ℤ) ^ 4 ≤ (decDiv 5 (1, 0) (7, 0)).1 ∧
      (decDiv 5 (1, 0) (7, 0)).1 < 10 ^ 5 := by
  decide

/-! ### The entry point

`run_demo` chains every step of the two demonstration functions that
can raise at runtime, on the script's fixed literal inputs, in source
order: the `remove` and `pop` mutations, the frozen-set dictionary
lookup, the decimal divisions, and the rational constructions (which
fail on a zero denominator).  The entry point exits with status 0 when
the chain succeeds and 1 when any step raises. -/

/-- `mapping[k]` on an association list, failing with `KeyError` when
the key is absent. -/
def pyLookup (m : List (Finset ℤ × String)) (k : Finset ℤ) : Except String String :=
  match m.find? (fun p => decide (p.1 = k)) with
  | some p => Except.ok p.2
  | none => Except.error "KeyError"

/-- `Decimal` division, failing on a zero divisor. -/
def pyDecimalDiv (prec : ℕ) (x y : ℤ × ℤ) : Except String (ℤ × ℤ) :=
  if y.1 = 0 then Except.error "DivisionByZero" else Except.ok (decDiv prec x y)

/-- `Fraction(n, d)`, failing on a zero denominator. -/
def pyFraction (n d : ℤ) : Except String (ℤ × ℤ) :=
  if d = 0 then Except.error "ZeroDivisionError" else Except.ok (n, d)

/-- `frozen = frozenset([1, 2, 3, 4, 5])`. -/
def frozen : Finset ℤ := ([1, 2, 3, 4, 5] : List ℤ).toFinset

/-- Every fallible computation the run performs, in source order, on
the fixed literal inputs of `demonstrate_set_operations` and
`demonstrate_number_types`. -/
def run_demo : Except String Unit := do
  let test_set : Finset ℤ := {1, 2, 3}
  let after_add := insert 4 test_set
  let after_update := after_add ∪ ([5, 6, 7] : List ℤ).toFinset
  let after_remove ← pyRemove after_update 7
  let after_discard := after_remove.erase 10
  let _ ← pyPop after_discard
  let mapping : List (Finset ℤ × String) :=
    [(frozen, "This is a value mapped to a frozen set key")]
  let _ ← pyLookup mapping frozen
  let _ ← pyDecimalDiv 5 (1, 0) (7, 0)
  let _ ← pyDecimalDiv 20 (1, 0) (7, 0)
  let _ ← pyFraction 1 3
  let _ ← pyFraction 1 4
  pure ()

/-- Exit status of the zero-argument entry point: 0 on success, 1 when
an error escapes. -/
def exit_status : ℕ :=
  match run_demo with
  | Except.ok _ => 0
  | Except.error _ => 1

/-- C9.  The run on the fixed literal inputs raises no error, so the
entry point terminates with exit status 0 and the status-1 branch is
not taken. -/
theorem c9_run_succeeds : run_demo = Except.ok () ∧ exit_status = 0 :=
  ⟨rfl, rfl⟩
